import Mathlib

/-!
Verification development for the Yubikey-backed MFA enrollment/teardown core
of the aws-vault fork (packages `mfa`, `vault`, `cli`).

Strings are modelled as `List Char`; Go errors as an explicit inductive
(`GoErr`) where `errors.Wrap`/`Wrapf` is `GoErr.wrap` and an `awserr.Error`
with a code is `GoErr.aws`.  The remote IAM/STS calls and the physical OTP
device are interfaces in the source, so their per-call results are inputs
(oracle fields) to the protocol functions; every protocol function also
returns the list of side-effecting calls it performed, in order.
-/

abbrev Str := List Char

/-- Coerce a Lean string literal to the `List Char` representation. -/
def str (s : String) : Str := s.data

/-- Model of Go `%q` formatting of a string, simplified to plain quoting
(no escape sequences; the identifiers involved never need escaping). -/
def goQuote (s : Str) : Str := '"' :: (s ++ ['"'])

/-- Model of Go error values as used by the source: `aws` is an
`awserr.Error` exposing a code, `plain` a plain `errors.New` error, and
`wrap` the result of `errors.Wrap`/`errors.Wrapf` (message plus cause). -/
inductive GoErr where
  | aws (code : Str) (msg : Str)
  | plain (msg : Str)
  | wrap (msg : Str) (cause : GoErr)
deriving DecidableEq

instance exceptDecEq {ε α : Type} [DecidableEq ε] [DecidableEq α] :
    DecidableEq (Except ε α)
  | .ok a, .ok b => if h : a = b then isTrue (by rw [h]) else isFalse (by simp [h])
  | .ok _, .error _ => isFalse (by simp)
  | .error _, .ok _ => isFalse (by simp)
  | .error e, .error f =>
    if h : e = f then isTrue (by rw [h]) else isFalse (by simp [h])

/-- Model of the source's tolerance test
`awsErr, ok := err.(awserr.Error); !ok || awsErr.Code() != "NoSuchEntity"`:
tolerated iff the error is an `awserr.Error` whose code is `NoSuchEntity`
(a wrapped error does not satisfy the type assertion). -/
def isNoSuchEntity (e : GoErr) : Bool :=
  match e with
  | .aws code _ => code = str "NoSuchEntity"
  | _ => false

/-- Model of Go `strings.Replace(s, pat, rep, 1)` for a non-empty pattern:
replace the first occurrence of `pat` in `s` by `rep`, if any. -/
def replaceFirst (s pat rep : Str) : Str :=
  match s with
  | [] => []
  | c :: t =>
    if pat.isPrefixOf (c :: t) then rep ++ (c :: t).drop pat.length
    else c :: replaceFirst t pat rep

/-- Splitting helper: the part of `s` before the first `':'` and, when a
`':'` exists, the remainder after it. -/
def splitFirstColon (s : Str) : Str × Option Str :=
  match s with
  | [] => ([], none)
  | c :: t =>
    if c = ':' then ([], some t)
    else
      let p := splitFirstColon t
      (c :: p.1, p.2)

/-- Model of Go `strings.SplitN(s, ":", n)` for `n ≥ 1`: split into at most
`n` parts, the last part keeping any remaining colons. -/
def splitNC (n : Nat) (s : Str) : List Str :=
  match n with
  | 0 => []
  | 1 => [s]
  | m + 2 =>
    match splitFirstColon s with
    | (_, none) => [s]
    | (a, some rest) => a :: splitNC (m + 1) rest

/-- Join a list of parts with `':'` (inverse of splitting, used in proofs). -/
def joinColon : List Str → Str
  | [] => []
  | [x] => x
  | x :: xs => x ++ ':' :: joinColon xs

/-- The five sections of a parsed ARN (`aws-sdk-go`'s `arn.ARN`). -/
structure Arn where
  partition : Str
  service : Str
  region : Str
  accountID : Str
  resource : Str
deriving DecidableEq

/-- The `"arn:"` marker checked by `arn.Parse`. -/
def arnPrefixL : Str := ['a', 'r', 'n', ':']

/-- Model of `aws-sdk-go`'s `arn.Parse`: require the `"arn:"` marker, split
into exactly 6 colon-separated sections, keep sections 1..5. -/
def arnParse (i : Str) : Except GoErr Arn :=
  if arnPrefixL.isPrefixOf i then
    match splitNC 6 i with
    | [_, p, sv, r, ac, res] => .ok ⟨p, sv, r, ac, res⟩
    | _ => .error (.plain (str "arn: not enough sections"))
  else .error (.plain (str "arn: invalid prefix"))

/-- Model of `arn.ARN.String()`: rejoin the sections behind `"arn:"`. -/
def Arn.toString (a : Arn) : Str :=
  arnPrefixL ++ a.partition ++ ':' :: a.service ++ ':' :: a.region ++
    ':' :: a.accountID ++ ':' :: a.resource

/-- The fixed user-form path segment `":user/"` of `callerIdentityToSerial`. -/
def userSeg : Str := str ":user/"

/-- The fixed device-form path segment `":mfa/"` of `callerIdentityToSerial`. -/
def mfaSeg : Str := str ":mfa/"

/-- Model of `mfa.callerIdentityToSerial`: parse the caller identity as an
ARN (wrapping a parse failure) and substitute the first `":user/"` by
`":mfa/"` in its canonical string form. -/
def callerIdentityToSerial (i : Str) : Except GoErr Str :=
  match arnParse i with
  | .error e => .error (.wrap (str "failed to parse " ++ goQuote i ++ str " as ARN") e)
  | .ok a => .ok (replaceFirst (Arn.toString a) userSeg mfaSeg)

/-- Model of `mfa.SerialToName`: parse the serial as an ARN (wrapping a
parse failure) and join the fixed issuer label `"aws"` with the canonical
string form by `":"` (`strings.Join([]string{"aws", a.String()}, ":")`). -/
def SerialToName (i : Str) : Except GoErr Str :=
  match arnParse i with
  | .error e => .error (.wrap (str "unable to parse arn: " ++ i) e)
  | .ok a => .ok (str "aws" ++ ':' :: Arn.toString a)

theorem splitFirstColon_none {s : Str} (h : (splitFirstColon s).2 = none) :
    (splitFirstColon s).1 = s := by
  induction s with
  | nil => rfl
  | cons c t ih =>
    by_cases hc : c = ':'
    · simp [splitFirstColon, hc] at h
    · simp only [splitFirstColon, if_neg hc] at h ⊢
      rw [ih h]

theorem splitFirstColon_some {s a r : Str}
    (h : splitFirstColon s = (a, some r)) : s = a ++ ':' :: r := by
  induction s generalizing a with
  | nil => simp [splitFirstColon] at h
  | cons c t ih =>
    by_cases hc : c = ':'
    · subst hc
      simp only [splitFirstColon, if_pos rfl, Prod.mk.injEq, Option.some.injEq] at h
      obtain ⟨rfl, rfl⟩ := h
      simp
    · rcases hp : splitFirstColon t with ⟨a', o⟩
      simp only [splitFirstColon, if_neg hc, hp, Prod.mk.injEq] at h
      obtain ⟨rfl, rfl⟩ := h
      have ht := ih (a := a') hp
      simp [ht]

theorem splitNC_ne_nil (n : Nat) (s : Str) : splitNC (n + 1) s ≠ [] := by
  match n with
  | 0 => simp [splitNC]
  | m + 1 =>
    simp only [splitNC]
    match splitFirstColon s with
    | (_, none) => simp
    | (a, some rest) => simp

theorem joinColon_cons {x : Str} {l : List Str} (h : l ≠ []) :
    joinColon (x :: l) = x ++ ':' :: joinColon l := by
  match l with
  | [] => exact absurd rfl h
  | y :: ys => rfl

theorem joinColon_splitNC (n : Nat) (s : Str) :
    joinColon (splitNC (n + 1) s) = s := by
  induction n generalizing s with
  | zero => simp [splitNC, joinColon]
  | succ m ih =>
    show joinColon (splitNC (m + 2) s) = s
    rcases hp : splitFirstColon s with ⟨a, o⟩
    match o with
    | none => simp [splitNC, hp, joinColon]
    | some rest =>
      simp only [splitNC, hp]
      rw [joinColon_cons (splitNC_ne_nil m rest), ih]
      exact (splitFirstColon_some hp).symm

theorem splitFirstColon_append {f : Str} (r : Str) (h : ':' ∉ f) :
    splitFirstColon (f ++ ':' :: r) = (f, some r) := by
  induction f with
  | nil => simp [splitFirstColon]
  | cons c t ih =>
    have hc : c ≠ ':' := fun hc => h (hc ▸ List.mem_cons_self c t)
    have ht : ':' ∉ t := fun hm => h (List.mem_cons_of_mem c hm)
    simp [splitFirstColon, if_neg hc, ih ht]

theorem splitNC_structured (p sv r ac res : Str)
    (hp : ':' ∉ p) (hsv : ':' ∉ sv) (hr : ':' ∉ r) (hac : ':' ∉ ac) :
    splitNC 6 (['a', 'r', 'n'] ++ ':' :: (p ++ ':' :: (sv ++ ':' ::
      (r ++ ':' :: (ac ++ ':' :: res))))) = [['a', 'r', 'n'], p, sv, r, ac, res] := by
  have harn : ':' ∉ (['a', 'r', 'n'] : Str) := by decide
  show splitNC 6 _ = _
  rw [show (6 : Nat) = 4 + 2 from rfl]
  simp only [splitNC, splitFirstColon_append _ harn]
  simp only [splitNC, splitFirstColon_append _ hp]
  simp only [splitNC, splitFirstColon_append _ hsv]
  simp only [splitNC, splitFirstColon_append _ hr]
  simp only [splitNC, splitFirstColon_append _ hac]

theorem arnPrefixL_isPrefixOf (t : Str) :
    arnPrefixL.isPrefixOf (['a', 'r', 'n'] ++ ':' :: t) = true := by
  simp [arnPrefixL, List.isPrefixOf]

theorem arnParse_structured (p sv r ac res : Str)
    (hp : ':' ∉ p) (hsv : ':' ∉ sv) (hr : ':' ∉ r) (hac : ':' ∉ ac) :
    arnParse (['a', 'r', 'n'] ++ ':' :: (p ++ ':' :: (sv ++ ':' ::
      (r ++ ':' :: (ac ++ ':' :: res))))) = .ok ⟨p, sv, r, ac, res⟩ := by
  rw [arnParse, if_pos (arnPrefixL_isPrefixOf _),
    splitNC_structured p sv r ac res hp hsv hr hac]

theorem arnParse_toString {s : Str} {a : Arn} (h : arnParse s = .ok a) :
    Arn.toString a = s := by
  rw [arnParse] at h
  by_cases hpre : arnPrefixL.isPrefixOf s = true
  · rw [if_pos hpre] at h
    obtain ⟨t, ht⟩ : ∃ t, arnPrefixL ++ t = s :=
      List.isPrefixOf_iff_prefix.mp hpre
    have hs : s = ['a', 'r', 'n'] ++ ':' :: t := by
      rw [← ht]; rfl
    have hsfc : splitFirstColon s = (['a', 'r', 'n'], some t) := by
      rw [hs]
      exact splitFirstColon_append t (by decide)
    have hsplit : splitNC 6 s = ['a', 'r', 'n'] :: splitNC 5 t := by
      rw [show (6 : Nat) = 4 + 2 from rfl]
      simp only [splitNC, hsfc]
    rw [hsplit] at h
    rcases h5 : splitNC 5 t with _ | ⟨x1, l1⟩
    · exact absurd h5 (splitNC_ne_nil 4 t)
    rcases l1 with _ | ⟨x2, l2⟩
    · rw [h5] at h; simp at h
    rcases l2 with _ | ⟨x3, l3⟩
    · rw [h5] at h; simp at h
    rcases l3 with _ | ⟨x4, l4⟩
    · rw [h5] at h; simp at h
    rcases l4 with _ | ⟨x5, l5⟩
    · rw [h5] at h; simp at h
    rcases l5 with _ | ⟨x6, l6⟩
    · rw [h5] at h
      simp only [Except.ok.injEq] at h
      have hjoin : joinColon (splitNC 5 t) = t := joinColon_splitNC 4 t
      rw [h5] at hjoin
      simp only [joinColon] at hjoin
      rw [hs, ← h, ← hjoin]
      simp [Arn.toString, arnPrefixL]
    · rw [h5] at h; simp at h
  · rw [if_neg hpre] at h
    simp at h

theorem replaceFirst_not_infix {s pat rep : Str} (h : ¬ pat <:+: s) :
    replaceFirst s pat rep = s := by
  induction s with
  | nil => rfl
  | cons c t ih =>
    have hnp : ¬ pat.isPrefixOf (c :: t) = true := by
      intro hb
      exact h (List.isPrefixOf_iff_prefix.mp hb).isInfix
    rw [replaceFirst, if_neg hnp, ih]
    intro hi
    exact h (List.infix_cons_iff.mpr (Or.inr hi))

theorem not_prefix_across_field {pa f rest : Str}
    (hs : '/' ∈ pa) (hc : ':' ∉ pa) (hf : '/' ∉ f) (hfc : ':' ∉ f) :
    ¬ pa <+: (f ++ ':' :: rest) := by
  induction f generalizing pa with
  | nil =>
    intro hp
    match pa, hs with
    | c :: t, hs =>
      rw [List.nil_append, List.cons_prefix_cons] at hp
      exact hc (hp.1 ▸ List.mem_cons_self c t)
  | cons a f' ih =>
    intro hp
    match pa, hs with
    | c :: t, hs =>
      rw [List.cons_append, List.cons_prefix_cons] at hp
      obtain ⟨rfl, hp'⟩ := hp
      have hsm : '/' ∈ t := by
        rcases List.mem_cons.mp hs with h1 | h1
        · exact absurd h1.symm (fun hh => hf (hh ▸ List.mem_cons_self c f'))
        · exact h1
      exact ih hsm (fun hm => hc (List.mem_cons_of_mem c hm))
        (fun hm => hf (List.mem_cons_of_mem c hm))
        (fun hm => hfc (List.mem_cons_of_mem c hm)) hp'

theorem replaceFirst_skip {f rest pa rep : Str} (hf : ':' ∉ f) :
    replaceFirst (f ++ rest) (':' :: pa) rep = f ++ replaceFirst rest (':' :: pa) rep := by
  induction f with
  | nil => rfl
  | cons c t ih =>
    have hc : c ≠ ':' := fun hc => hf (hc ▸ List.mem_cons_self c t)
    have hnp : ¬ (':' :: pa).isPrefixOf (c :: (t ++ rest)) = true := by
      intro hb
      have := (List.isPrefixOf_iff_prefix.mp hb)
      rw [List.cons_prefix_cons] at this
      exact hc this.1.symm
    rw [List.cons_append, replaceFirst, if_neg hnp,
      ih (fun hm => hf (List.mem_cons_of_mem c hm))]
    rfl

theorem replaceFirst_colon {rest pa rep : Str} (h : ¬ pa <+: rest) :
    replaceFirst (':' :: rest) (':' :: pa) rep = ':' :: replaceFirst rest (':' :: pa) rep := by
  have hnp : ¬ (':' :: pa).isPrefixOf (':' :: rest) = true := by
    intro hb
    have := List.isPrefixOf_iff_prefix.mp hb
    rw [List.cons_prefix_cons] at this
    exact h this.2
  rw [replaceFirst, if_neg hnp]

theorem replaceFirst_hit (pa y rep : Str) :
    replaceFirst ((':' :: pa) ++ y) (':' :: pa) rep = rep ++ y := by
  have hb : (':' :: pa).isPrefixOf ((':' :: pa) ++ y) = true :=
    List.isPrefixOf_iff_prefix.mpr (List.prefix_append _ _)
  rw [List.cons_append, replaceFirst, if_pos (by rw [← List.cons_append]; exact hb)]
  rw [← List.cons_append, List.drop_left]

/-- A well-formed user-identity identifier: a canonical ARN whose resource
is the principal path segment `user/` followed by a path/name `n`. -/
def mkUserArn (p sv r ac n : Str) : Str :=
  Arn.toString ⟨p, sv, r, ac, str "user/" ++ n⟩

/-- The device-identity form of `mkUserArn`: same ARN with resource
`mfa/` followed by the same path/name. -/
def mkMfaArn (p sv r ac n : Str) : Str :=
  Arn.toString ⟨p, sv, r, ac, str "mfa/" ++ n⟩

/-- Reconstructed from the spec's words (the source has no such function):
reversing the same fixed substitution, i.e. replacing the first `":mfa/"`
by `":user/"`. -/
def specReverseSubstitution (s : Str) : Str :=
  replaceFirst s mfaSeg userSeg

theorem replaceFirst_arn (p sv r ac n pa rep : Str)
    (hpa1 : '/' ∈ pa) (hpa2 : ':' ∉ pa)
    (hp : ':' ∉ p) (hp2 : '/' ∉ p) (hsv : ':' ∉ sv) (hsv2 : '/' ∉ sv)
    (hr : ':' ∉ r) (hr2 : '/' ∉ r) (hac : ':' ∉ ac) (hac2 : '/' ∉ ac) :
    replaceFirst (['a', 'r', 'n'] ++ ':' :: (p ++ ':' :: (sv ++ ':' ::
        (r ++ ':' :: (ac ++ ':' :: (pa ++ n)))))) (':' :: pa) rep
      = ['a', 'r', 'n'] ++ ':' :: (p ++ ':' :: (sv ++ ':' ::
        (r ++ ':' :: (ac ++ (rep ++ n))))) := by
  rw [replaceFirst_skip (show ':' ∉ (['a', 'r', 'n'] : Str) by decide)]
  rw [replaceFirst_colon (not_prefix_across_field hpa1 hpa2 hp2 hp)]
  rw [replaceFirst_skip hp]
  rw [replaceFirst_colon (not_prefix_across_field hpa1 hpa2 hsv2 hsv)]
  rw [replaceFirst_skip hsv]
  rw [replaceFirst_colon (not_prefix_across_field hpa1 hpa2 hr2 hr)]
  rw [replaceFirst_skip hr]
  rw [replaceFirst_colon (not_prefix_across_field hpa1 hpa2 hac2 hac)]
  rw [replaceFirst_skip hac]
  rw [show (':' :: (pa ++ n) : Str) = (':' :: pa) ++ n from rfl]
  rw [replaceFirst_hit]

theorem mkUserArn_shape (p sv r ac n : Str) :
    mkUserArn p sv r ac n = ['a', 'r', 'n'] ++ ':' :: (p ++ ':' :: (sv ++ ':' ::
      (r ++ ':' :: (ac ++ ':' :: (str "user/" ++ n))))) := by
  simp [mkUserArn, Arn.toString, arnPrefixL, List.append_assoc]

theorem mkMfaArn_shape (p sv r ac n : Str) :
    mkMfaArn p sv r ac n = ['a', 'r', 'n'] ++ ':' :: (p ++ ':' :: (sv ++ ':' ::
      (r ++ ':' :: (ac ++ ':' :: (str "mfa/" ++ n))))) := by
  simp [mkMfaArn, Arn.toString, arnPrefixL, List.append_assoc]

theorem callerIdentityToSerial_mkUserArn (p sv r ac n : Str)
    (hp : ':' ∉ p) (hp2 : '/' ∉ p) (hsv : ':' ∉ sv) (hsv2 : '/' ∉ sv)
    (hr : ':' ∉ r) (hr2 : '/' ∉ r) (hac : ':' ∉ ac) (hac2 : '/' ∉ ac) :
    callerIdentityToSerial (mkUserArn p sv r ac n) = .ok (mkMfaArn p sv r ac n) := by
  rw [callerIdentityToSerial, mkUserArn_shape,
    arnParse_structured p sv r ac _ hp hsv hr hac]
  show Except.ok (replaceFirst
      (Arn.toString ⟨p, sv, r, ac, str "user/" ++ n⟩) userSeg mfaSeg) =
    Except.ok (mkMfaArn p sv r ac n)
  have hts : Arn.toString ⟨p, sv, r, ac, str "user/" ++ n⟩ =
      ['a', 'r', 'n'] ++ ':' :: (p ++ ':' :: (sv ++ ':' ::
        (r ++ ':' :: (ac ++ ':' :: (str "user/" ++ n))))) :=
    mkUserArn_shape p sv r ac n
  rw [hts, show userSeg = ':' :: str "user/" from rfl]
  rw [replaceFirst_arn p sv r ac n (str "user/") mfaSeg (by decide) (by decide)
    hp hp2 hsv hsv2 hr hr2 hac hac2]
  rw [mkMfaArn_shape]
  simp [mfaSeg, str, List.append_assoc]

theorem specReverseSubstitution_mkMfaArn (p sv r ac n : Str)
    (hp : ':' ∉ p) (hp2 : '/' ∉ p) (hsv : ':' ∉ sv) (hsv2 : '/' ∉ sv)
    (hr : ':' ∉ r) (hr2 : '/' ∉ r) (hac : ':' ∉ ac) (hac2 : '/' ∉ ac) :
    specReverseSubstitution (mkMfaArn p sv r ac n) = mkUserArn p sv r ac n := by
  rw [specReverseSubstitution, mkMfaArn_shape,
    show mfaSeg = ':' :: str "mfa/" from rfl]
  rw [replaceFirst_arn p sv r ac n (str "mfa/") userSeg (by decide) (by decide)
    hp hp2 hsv hsv2 hr hr2 hac hac2]
  rw [mkUserArn_shape]
  simp [userSeg, str, List.append_assoc]

/-- The RFC 4648 standard base32 alphabet used by Go's
`base32.StdEncoding`. -/
def b32alphabet : Str := str "ABCDEFGHIJKLMNOPQRSTUVWXYZ234567"

/-- The 5-bit value of an alphabet character, if valid. -/
def b32val (c : Char) : Option Nat := b32alphabet.indexOf? c

/-- The alphabet character for a 5-bit value. -/
def b32char (v : Nat) : Char := b32alphabet.getD v 'A'

/-- Encode one group of 1..5 bytes into 8 base32 characters, padding with
`'='` as in RFC 4648 / Go `base32.StdEncoding.EncodeToString`. -/
def base32EncGroup (g : List Nat) : Str :=
  match g with
  | [b0] =>
    [b32char (b0 / 8), b32char (b0 % 8 * 4)] ++ str "======"
  | [b0, b1] =>
    [b32char (b0 / 8), b32char (b0 % 8 * 4 + b1 / 64), b32char (b1 / 2 % 32),
      b32char (b1 % 2 * 16)] ++ str "===="
  | [b0, b1, b2] =>
    [b32char (b0 / 8), b32char (b0 % 8 * 4 + b1 / 64), b32char (b1 / 2 % 32),
      b32char (b1 % 2 * 16 + b2 / 16), b32char (b2 % 16 * 2)] ++ str "==="
  | [b0, b1, b2, b3] =>
    [b32char (b0 / 8), b32char (b0 % 8 * 4 + b1 / 64), b32char (b1 / 2 % 32),
      b32char (b1 % 2 * 16 + b2 / 16), b32char (b2 % 16 * 2 + b3 / 128),
      b32char (b3 / 4 % 32), b32char (b3 % 4 * 8)] ++ str "="
  | [b0, b1, b2, b3, b4] =>
    [b32char (b0 / 8), b32char (b0 % 8 * 4 + b1 / 64), b32char (b1 / 2 % 32),
      b32char (b1 % 2 * 16 + b2 / 16), b32char (b2 % 16 * 2 + b3 / 128),
      b32char (b3 / 4 % 32), b32char (b3 % 4 * 8 + b4 / 32), b32char (b4 % 32)]
  | _ => []

/-- Model of Go `base32.StdEncoding.EncodeToString`: encode bytes in
5-byte groups (the final group may be shorter). -/
def base32Encode : List Nat → Str
  | [] => []
  | [b0] => base32EncGroup [b0]
  | [b0, b1] => base32EncGroup [b0, b1]
  | [b0, b1, b2] => base32EncGroup [b0, b1, b2]
  | [b0, b1, b2, b3] => base32EncGroup [b0, b1, b2, b3]
  | b0 :: b1 :: b2 :: b3 :: b4 :: rest =>
    base32EncGroup [b0, b1, b2, b3, b4] ++ base32Encode rest

/-- Decode one block of 8 base32 characters (with possible `'='` padding
suffix) into its bytes; `none` models Go's `CorruptInputError`. -/
def base32DecGroup (g : Str) : Option (List Nat) :=
  let dataChars := g.takeWhile (fun c => c ≠ '=')
  if g.dropWhile (fun c => c ≠ '=') ≠ List.replicate (8 - dataChars.length) '=' then
    none
  else
    match (dataChars.map b32val).allSome with
    | none => none
    | some vs =>
      match vs with
      | [v0, v1] => some [v0 * 8 + v1 / 4]
      | [v0, v1, v2, v3] => some [v0 * 8 + v1 / 4, v1 % 4 * 64 + v2 * 2 + v3 / 16]
      | [v0, v1, v2, v3, v4] =>
        some [v0 * 8 + v1 / 4, v1 % 4 * 64 + v2 * 2 + v3 / 16, v3 % 16 * 16 + v4 / 2]
      | [v0, v1, v2, v3, v4, v5, v6] =>
        some [v0 * 8 + v1 / 4, v1 % 4 * 64 + v2 * 2 + v3 / 16, v3 % 16 * 16 + v4 / 2,
          v4 % 2 * 128 + v5 * 4 + v6 / 8]
      | [v0, v1, v2, v3, v4, v5, v6, v7] =>
        some [v0 * 8 + v1 / 4, v1 % 4 * 64 + v2 * 2 + v3 / 16, v3 % 16 * 16 + v4 / 2,
          v4 % 2 * 128 + v5 * 4 + v6 / 8, v6 % 8 * 32 + v7]
      | _ => none

/-- Model of Go `base32.StdEncoding.DecodeString`: decode 8-character
blocks; an incomplete block is corrupt, and padding is only legal in the
final block. -/
def base32Decode : Str → Option (List Nat)
  | [] => some []
  | c0 :: c1 :: c2 :: c3 :: c4 :: c5 :: c6 :: c7 :: rest =>
    match base32DecGroup [c0, c1, c2, c3, c4, c5, c6, c7] with
    | none => none
    | some bs =>
      if '=' ∈ [c0, c1, c2, c3, c4, c5, c6, c7] ∧ rest ≠ [] then none
      else
        match base32Decode rest with
        | none => none
        | some more => some (bs ++ more)
  | _ => none

/-- Per-call results of the collaborators used by enrollment
(`MFA.Add` → `create`/`enable` in `mfa/iamyubikey.go`): the IAM
`CreateVirtualMFADevice` response (serial and base32 seed), the device
`Add`, the two `GetOTP` calls, the IAM `EnableMFADevice` call, and the
device label `device.Name()`. -/
structure EnrollCalls where
  createResult : Except GoErr (Str × Str)
  deviceAdd : Except GoErr Unit
  otp1 : Except GoErr Str
  otp2 : Except GoErr Str
  enableDevice : Except GoErr Unit
  deviceName : Str

/-- Side-effecting calls performed during enrollment, in order.  The
`deviceDelete` constructor exists only so that its absence from every
enrollment trace is expressible; enrollment never emits it. -/
inductive EEvent where
  | deviceAdd (name : Str) (secret : List Nat)
  | getOtp (t : Int) (name : Str)
  | remoteEnable (username code1 code2 : Str)
  | deviceDelete (name : Str)
deriving DecidableEq

/-- Model of `MFA.enable` (`mfa/iamyubikey.go` lines 95-129).  Time is in
seconds; `t1` and `t2` are the results of the two separate `time.Now()`
calls (the Go clock is monotone, so users of this model assume `t1 ≤ t2`);
the second `GetOTP` is invoked at `t2 + 30` (`time.Now().Add(30*time.Second)`). -/
def enable (env : EnrollCalls) (username serial : Str) (secret : List Nat)
    (t1 t2 : Int) : Except GoErr Unit × List EEvent :=
  match SerialToName serial with
  | .error e => (.error e, [])
  | .ok name =>
    match env.deviceAdd with
    | .error e =>
      (.error (.wrap (str "error adding source " ++ name ++ ' ' :: env.deviceName) e),
        [.deviceAdd name secret])
    | .ok _ =>
      match env.otp1 with
      | .error e =>
        (.error (.wrap (str "error getting first otp") e),
          [.deviceAdd name secret, .getOtp t1 name])
      | .ok otp1 =>
        match env.otp2 with
        | .error e =>
          (.error (.wrap (str "error getting second otp") e),
            [.deviceAdd name secret, .getOtp t1 name, .getOtp (t2 + 30) name])
        | .ok otp2 =>
          match env.enableDevice with
          | .error e =>
            (.error (.wrap (str "error enabling Yubikey as virtual mfa device") e),
              [.deviceAdd name secret, .getOtp t1 name, .getOtp (t2 + 30) name,
                .remoteEnable username otp1 otp2])
          | .ok _ =>
            (.ok (),
              [.deviceAdd name secret, .getOtp t1 name, .getOtp (t2 + 30) name,
                .remoteEnable username otp1 otp2])

/-- Model of `MFA.create` (`mfa/iamyubikey.go` lines 77-93): remote
creation then base32-decode of the returned seed. -/
def mfaCreate (env : EnrollCalls) : Except GoErr (Str × List Nat) :=
  match env.createResult with
  | .error e => .error (.wrap (str "error creating virtual device for iam user") e)
  | .ok (serial, seed) =>
    match base32Decode seed with
    | none => .error (.wrap (str "error decoding secret") (.plain (str "illegal base32 data")))
    | some secret => .ok (serial, secret)

/-- Model of `MFA.Add` (`mfa/iamyubikey.go` lines 35-47): create, then
enable; returns the serial and the decoded secret. -/
def mfaAdd (env : EnrollCalls) (username : Str) (t1 t2 : Int) :
    Except GoErr (Str × List Nat) × List EEvent :=
  match mfaCreate env with
  | .error e => (.error e, [])
  | .ok (serial, secret) =>
    match enable env username serial secret t1 t2 with
    | (.error e, tr) => (.error e, tr)
    | (.ok _, tr) => (.ok (serial, secret), tr)

/-- The derivation times of the `GetOTP` calls in an enrollment trace. -/
def otpTimes (tr : List EEvent) : List Int :=
  tr.filterMap fun e =>
    match e with
    | .getOtp t _ => some t
    | _ => none

/-- Model of `vault.Yubikey.Register` (`vault/yubikey.go` lines 28-87)
from the `mfa.New`/`m.Add` step on: run enrollment, then build the
`otpauth` URI handed to QR rendering
(`fmt.Sprintf("otpauth://totp/%s@%s?secret=%s&issuer=%s", y.Username,
y.ProfileSection.Name, base32.StdEncoding.EncodeToString(secret),
"Amazon")`). -/
def vaultRegister (env : EnrollCalls) (username profileName : Str)
    (t1 t2 : Int) : Except GoErr Str × List EEvent :=
  match mfaAdd env username t1 t2 with
  | (.error e, tr) => (.error e, tr)
  | (.ok (_, secret), tr) =>
    (.ok (str "otpauth://totp/" ++ username ++ '@' :: profileName ++
      str "?secret=" ++ base32Encode secret ++ str "&issuer=" ++ str "Amazon"), tr)

/-- Following the spec's words (§6 Display/QR rendering): the enrollment
URI shape `otpauth://totp/<displayIdentity>?secret=<base32Secret>&issuer=<issuerLabel>`. -/
def specEnrollmentUri (displayIdentity : Str) (secret : List Nat)
    (issuerLabel : Str) : Str :=
  str "otpauth://totp/" ++ displayIdentity ++ str "?secret=" ++
    base32Encode secret ++ str "&issuer=" ++ issuerLabel

/-- Per-call results of the collaborators used by teardown (`MFA.Delete`
in `mfa/iamyubikey.go`): the STS `GetCallerIdentity` ARN, the IAM
`DeactivateMFADevice` and `DeleteVirtualMFADevice` calls, the device
`Delete`, and the device label. -/
structure TeardownCalls where
  callerIdentity : Except GoErr Str
  deactivateRes : Except GoErr Unit
  remoteDeleteRes : Except GoErr Unit
  deviceDeleteRes : Except GoErr Unit
  deviceName : Str

/-- Side-effecting calls performed during teardown, in order. -/
inductive TEvent where
  | remoteDeactivate
  | remoteDelete
  | deviceDelete
deriving DecidableEq

/-- Model of `MFA.deactivate` (`mfa/iamyubikey.go` lines 132-147): a
`NoSuchEntity` AWS error is treated as success; anything else is wrapped. -/
def deactivateCheck (res : Except GoErr Unit) (serial : Str) : Except GoErr Unit :=
  match res with
  | .ok _ => .ok ()
  | .error e =>
    if isNoSuchEntity e then .ok ()
    else .error (.wrap (str "failed to deactivate virtual AWS MFA device with serial " ++
      goQuote serial) e)

/-- Model of the remote-delete check inside `MFA.delete`
(`mfa/iamyubikey.go` lines 150-161): same `NoSuchEntity` tolerance. -/
def remoteDeleteCheck (res : Except GoErr Unit) (serial : Str) : Except GoErr Unit :=
  match res with
  | .ok _ => .ok ()
  | .error e =>
    if isNoSuchEntity e then .ok ()
    else .error (.wrap (str "failed to delete virtual AWS MFA device with serial " ++
      goQuote serial) e)

/-- Model of `MFA.Delete` (`mfa/iamyubikey.go` lines 51-74) together with
the private `delete` (lines 150-175): resolve the caller identity, convert
to the device serial, deactivate (tolerant), remote-delete (tolerant),
then `device.Delete` on the display name — whose failure, of any kind, is
wrapped and returned. -/
def mfaDelete (env : TeardownCalls) : Except GoErr Unit × List TEvent :=
  match env.callerIdentity with
  | .error e =>
    (.error (.wrap (str "failed to determine serial number for device deletion") e), [])
  | .ok arnStr =>
    match callerIdentityToSerial arnStr with
    | .error e => (.error e, [])
    | .ok serial =>
      match deactivateCheck env.deactivateRes serial with
      | .error e => (.error e, [.remoteDeactivate])
      | .ok _ =>
        match remoteDeleteCheck env.remoteDeleteRes serial with
        | .error e => (.error e, [.remoteDeactivate, .remoteDelete])
        | .ok _ =>
          match SerialToName serial with
          | .error e => (.error e, [.remoteDeactivate, .remoteDelete])
          | .ok name =>
            match env.deviceDeleteRes with
            | .error e =>
              (.error (.wrap (str "failed to remove " ++ goQuote name ++
                str " from source " ++ goQuote env.deviceName) e),
                [.remoteDeactivate, .remoteDelete, .deviceDelete])
            | .ok _ => (.ok (), [.remoteDeactivate, .remoteDelete, .deviceDelete])

/-- The `NoSuchEntity` AWS error surfaced by the remote IAM API for an
absent entity. -/
def noSuchEntityErr : GoErr := .aws (str "NoSuchEntity") (str "NoSuchEntity")

/-- Modelled from the spec: the `DeviceNotFoundError` of the OtpDevice
contract (§4.1) — the concrete Yubikey backend is outside `src/`. -/
def deviceNotFoundError : GoErr := .plain (str "DeviceNotFoundError")

/-- Modelled from the spec: the joint state of the remote IAM system and
the local OTP device relevant to one identity — whether the virtual MFA
device is still associated/active for the user, whether the virtual device
entity still exists remotely, and whether the local device entry exists. -/
structure World where
  remoteActive : Bool
  remoteExists : Bool
  deviceEntry : Bool
deriving DecidableEq

/-- Modelled from the spec: `DeactivateDevice` (§6) succeeds when the
device is active for the user and surfaces the distinguishable
`NoSuchEntity` condition otherwise. -/
def worldDeactivate (w : World) : Except GoErr Unit × World :=
  if w.remoteActive then (.ok (), { w with remoteActive := false })
  else (.error noSuchEntityErr, w)

/-- Modelled from the spec: `DeleteVirtualDevice` (§6) surfaces
`NoSuchEntity` for an absent entity, rejects deleting an active device
(§4.4: the remote system rejects deleting an active device), and succeeds
otherwise. -/
def worldRemoteDelete (w : World) : Except GoErr Unit × World :=
  if ¬ w.remoteExists then (.error noSuchEntityErr, w)
  else if w.remoteActive then (.error (.aws (str "DeleteConflict") (str "device is active")), w)
  else (.ok (), { w with remoteExists := false })

/-- Modelled from the spec: `OtpDevice.Delete` (§4.1) removes the named
entry and fails with `DeviceNotFoundError` if absent. -/
def worldDeviceDelete (w : World) : Except GoErr Unit × World :=
  if w.deviceEntry then (.ok (), { w with deviceEntry := false })
  else (.error deviceNotFoundError, w)

/-- The teardown of `MFA.Delete` run against the stateful world model:
identical control flow to `mfaDelete`, with each collaborator result drawn
from (and updating) the world.  `arnStr` is the caller identity returned
by STS and `deviceName` the device label. -/
def mfaDeleteW (arnStr deviceName : Str) (w : World) : Except GoErr Unit × World :=
  match callerIdentityToSerial arnStr with
  | .error e => (.error e, w)
  | .ok serial =>
    let r1 := worldDeactivate w
    match deactivateCheck r1.1 serial with
    | .error e => (.error e, r1.2)
    | .ok _ =>
      let r2 := worldRemoteDelete r1.2
      match remoteDeleteCheck r2.1 serial with
      | .error e => (.error e, r2.2)
      | .ok _ =>
        match SerialToName serial with
        | .error e => (.error e, r2.2)
        | .ok name =>
          let r3 := worldDeviceDelete r2.2
          match r3.1 with
          | .error e =>
            (.error (.wrap (str "failed to remove " ++ goQuote name ++
              str " from source " ++ goQuote deviceName) e), r3.2)
          | .ok _ => (.ok (), r3.2)

/-- Per-call results of the collaborators used by `vault.Yubikey.Remove`:
the outcome of the teardown (`m.Delete`) and of the cached-session
deletion (`KeyringSessions.Delete`, returning a count). -/
structure RemoveCalls where
  teardownRes : Except GoErr Unit
  sessionDeleteRes : Except GoErr Nat

/-- Side-effecting calls and log lines of `vault.Yubikey.Remove`, in order. -/
inductive REvent where
  | teardown
  | sessionDelete
  | logDeletedSession
  | logDeletedSessions (n : Nat)
deriving DecidableEq

/-- Model of `vault.Yubikey.Remove` (`vault/yubikey.go` lines 90-145) from
the `m.Delete` step on: teardown first (its error returned as-is), then
the keyring-session deletion (its error wrapped), with the count logged
when it is 1 and, as a should-not-happen anomaly, when it exceeds 1. -/
def vaultRemove (env : RemoveCalls) (profileName : Str) :
    Except GoErr Unit × List REvent :=
  match env.teardownRes with
  | .error e => (.error e, [.teardown])
  | .ok _ =>
    match env.sessionDeleteRes with
    | .error e =>
      (.error (.wrap (str "unable to delete keyring session for " ++ profileName) e),
        [.teardown, .sessionDelete])
    | .ok n =>
      (.ok (), [.teardown, .sessionDelete] ++
        (if n = 1 then [.logDeletedSession] else []) ++
        (if n > 1 then [.logDeletedSessions n] else []))

/-- The caller identity of the worked examples (spec Scenario 2). -/
def uAlice : Str := str "arn:aws:iam::111111111111:user/alice"

/-- The device serial of the worked examples. -/
def mAlice : Str := str "arn:aws:iam::111111111111:mfa/alice"

/-- The display identity of the worked examples. -/
def dAlice : Str := str "aws:arn:aws:iam::111111111111:mfa/alice"

/-- Teardown collaborators where both remote steps succeed and the device
delete reports a not-found error. -/
def tearEnvDevNotFound : TeardownCalls :=
  ⟨.ok uAlice, .ok (), .ok (), .error deviceNotFoundError, str "Yubikey"⟩

/-- Teardown collaborators where both remote calls report `NoSuchEntity`
and the device delete succeeds. -/
def tearEnvRemoteGone : TeardownCalls :=
  ⟨.ok uAlice, .error noSuchEntityErr, .error noSuchEntityErr, .ok (), str "Yubikey"⟩

/-- Teardown collaborators where every call succeeds. -/
def tearEnvOk : TeardownCalls :=
  ⟨.ok uAlice, .ok (), .ok (), .ok (), str "Yubikey"⟩

theorem deactivateCheck_tolerated {res : Except GoErr Unit} (serial : Str)
    (h : res = .ok () ∨ ∃ e, res = .error e ∧ isNoSuchEntity e = true) :
    deactivateCheck res serial = .ok () := by
  rcases h with h | ⟨e, he, hns⟩
  · rw [h]; rfl
  · rw [he]; simp [deactivateCheck, hns]

theorem remoteDeleteCheck_tolerated {res : Except GoErr Unit} (serial : Str)
    (h : res = .ok () ∨ ∃ e, res = .error e ∧ isNoSuchEntity e = true) :
    remoteDeleteCheck res serial = .ok () := by
  rcases h with h | ⟨e, he, hns⟩
  · rw [h]; rfl
  · rw [he]; simp [remoteDeleteCheck, hns]

/-- C1 counterexample: with both remote teardown steps succeeding and
`OtpDevice.Delete` returning `DeviceNotFoundError`, `Teardown` does not
return success — the not-found device error is wrapped and surfaced, so
the claimed tolerance does not hold. -/
theorem c1_counterexample :
    (mfaDelete tearEnvDevNotFound).1 =
      .error (.wrap (str "failed to remove " ++ goQuote dAlice ++
        str " from source " ++ goQuote (str "Yubikey")) deviceNotFoundError) ∧
    (mfaDelete tearEnvDevNotFound).1 ≠ .ok () := by
  decide

/-- C1 (amended): after the remote deactivate and remote delete have
succeeded (or been tolerated), any error returned by `OtpDevice.Delete` on
the display identity — including `DeviceNotFoundError` — is surfaced:
`Teardown` returns a `DeviceTeardownError` wrapping the device error. -/
theorem c1_device_error_surfaced (env : TeardownCalls) (s serial name : Str)
    (e : GoErr)
    (hci : env.callerIdentity = .ok s)
    (hser : callerIdentityToSerial s = .ok serial)
    (hde : deactivateCheck env.deactivateRes serial = .ok ())
    (hrd : remoteDeleteCheck env.remoteDeleteRes serial = .ok ())
    (hname : SerialToName serial = .ok name)
    (hdev : env.deviceDeleteRes = .error e) :
    (mfaDelete env).1 = .error (.wrap (str "failed to remove " ++ goQuote name ++
      str " from source " ++ goQuote env.deviceName) e) := by
  simp [mfaDelete, hci, hser, hde, hrd, hname, hdev]

/-- C1 amended-claim witness at the Scenario 3 input. -/
theorem c1_device_error_surfaced_witness :
    (mfaDelete tearEnvDevNotFound).1 =
      .error (.wrap (str "failed to remove " ++ goQuote dAlice ++
        str " from source " ++ goQuote (str "Yubikey")) deviceNotFoundError) :=
  c1_device_error_surfaced tearEnvDevNotFound uAlice mAlice dAlice
    deviceNotFoundError (by decide) (by decide) (by decide) (by decide)
    (by decide) (by decide)

/-- C2 counterexample: from a world where the device is enrolled and
active, the first `Teardown` succeeds but the second fails — its remote
`NoSuchEntity` conditions are tolerated, yet the local `OtpDevice.Delete`
then reports not-found, which is surfaced as an error. -/
theorem c2_counterexample :
    (mfaDeleteW uAlice (str "Yubikey") ⟨true, true, true⟩).1 = .ok () ∧
    (mfaDeleteW uAlice (str "Yubikey")
      (mfaDeleteW uAlice (str "Yubikey") ⟨true, true, true⟩).2).1 ≠ .ok () := by
  decide

/-- C2 (amended): a remote deactivate or remote delete failing with
`NoSuchEntity` is treated as success and teardown continues (and any other
remote deactivate error is surfaced); but teardown is not idempotent as a
whole: run twice from a fully-enrolled world, the first call succeeds and
the second fails at the local device deletion, whose not-found error is
not tolerated. -/
theorem c2_remote_tolerance :
    (∀ (env : TeardownCalls) (s serial name : Str),
      env.callerIdentity = .ok s →
      callerIdentityToSerial s = .ok serial →
      SerialToName serial = .ok name →
      (env.deactivateRes = .ok () ∨
        ∃ e, env.deactivateRes = .error e ∧ isNoSuchEntity e = true) →
      (env.remoteDeleteRes = .ok () ∨
        ∃ e, env.remoteDeleteRes = .error e ∧ isNoSuchEntity e = true) →
      env.deviceDeleteRes = .ok () →
      (mfaDelete env).1 = .ok ()) ∧
    (∀ (env : TeardownCalls) (s serial : Str) (e : GoErr),
      env.callerIdentity = .ok s →
      callerIdentityToSerial s = .ok serial →
      env.deactivateRes = .error e → isNoSuchEntity e = false →
      (mfaDelete env).1 = .error (.wrap
        (str "failed to deactivate virtual AWS MFA device with serial " ++
          goQuote serial) e)) ∧
    (∀ (env : TeardownCalls) (s serial : Str) (e : GoErr),
      env.callerIdentity = .ok s →
      callerIdentityToSerial s = .ok serial →
      (env.deactivateRes = .ok () ∨
        ∃ e1, env.deactivateRes = .error e1 ∧ isNoSuchEntity e1 = true) →
      env.remoteDeleteRes = .error e → isNoSuchEntity e = false →
      (mfaDelete env).1 = .error (.wrap
        (str "failed to delete virtual AWS MFA device with serial " ++
          goQuote serial) e)) ∧
    ((mfaDeleteW uAlice (str "Yubikey") ⟨true, true, true⟩).1 = .ok () ∧
      (mfaDeleteW uAlice (str "Yubikey")
        (mfaDeleteW uAlice (str "Yubikey") ⟨true, true, true⟩).2).1 ≠ .ok ()) := by
  refine ⟨?_, ?_, ?_, by decide⟩
  · intro env s serial name hci hser hname hde hrd hdev
    simp [mfaDelete, hci, hser, deactivateCheck_tolerated serial hde,
      remoteDeleteCheck_tolerated serial hrd, hname, hdev]
  · intro env s serial e hci hser hde hns
    simp [mfaDelete, hci, hser, hde, deactivateCheck, hns]
  · intro env s serial e hci hser hde hrd hns
    simp [mfaDelete, hci, hser, deactivateCheck_tolerated serial hde, hrd,
      remoteDeleteCheck, hns]

/-- C2 amended-claim witness at the Scenario 2 input: both remote calls
report `NoSuchEntity`, the device delete succeeds, and teardown succeeds. -/
theorem c2_remote_tolerance_witness :
    (mfaDelete tearEnvRemoteGone).1 = .ok () :=
  c2_remote_tolerance.1 tearEnvRemoteGone uAlice mAlice dAlice
    (by decide) (by decide) (by decide)
    (Or.inr ⟨noSuchEntityErr, by decide, by decide⟩)
    (Or.inr ⟨noSuchEntityErr, by decide, by decide⟩) (by decide)

/-- C3: for every well-formed user-identity ARN (canonical ARN whose
resource is `user/<name>` and whose partition, service, region and account
fields are free of `':'` and `'/'`, as canonical AWS identifiers are), the
source conversion `callerIdentityToSerial` yields exactly the device-form
ARN (`":user/"` replaced by `":mfa/"`), and reversing the same fixed
substitution yields the original identifier again. -/
theorem c3_roundtrip (p sv r ac n : Str)
    (hp : ':' ∉ p) (hp2 : '/' ∉ p) (hsv : ':' ∉ sv) (hsv2 : '/' ∉ sv)
    (hr : ':' ∉ r) (hr2 : '/' ∉ r) (hac : ':' ∉ ac) (hac2 : '/' ∉ ac) :
    callerIdentityToSerial (mkUserArn p sv r ac n) = .ok (mkMfaArn p sv r ac n) ∧
    specReverseSubstitution (mkMfaArn p sv r ac n) = mkUserArn p sv r ac n :=
  ⟨callerIdentityToSerial_mkUserArn p sv r ac n hp hp2 hsv hsv2 hr hr2 hac hac2,
    specReverseSubstitution_mkMfaArn p sv r ac n hp hp2 hsv hsv2 hr hr2 hac hac2⟩

/-- C3 witness at the Scenario 2 identifier. -/
theorem c3_roundtrip_witness :
    callerIdentityToSerial (mkUserArn (str "aws") (str "iam") []
        (str "111111111111") (str "alice")) =
      .ok (mkMfaArn (str "aws") (str "iam") [] (str "111111111111") (str "alice")) ∧
    specReverseSubstitution (mkMfaArn (str "aws") (str "iam") []
        (str "111111111111") (str "alice")) =
      mkUserArn (str "aws") (str "iam") [] (str "111111111111") (str "alice") :=
  c3_roundtrip (str "aws") (str "iam") [] (str "111111111111") (str "alice")
    (by decide) (by decide) (by decide) (by decide) (by decide) (by decide)
    (by decide) (by decide)

/-- Enrollment collaborators where every call succeeds, with the
Scenario 1 serial and seed. -/
def enrollEnvOk : EnrollCalls :=
  ⟨.ok (mAlice, str "JBSWY3DPEHPK3PXP"), .ok (), .ok (str "123456"),
    .ok (str "654321"), .ok (), str "Yubikey"⟩

/-- Enrollment collaborators where everything succeeds except the remote
`EnableMFADevice` call. -/
def enrollEnvEnableFail : EnrollCalls :=
  ⟨.ok (mAlice, str "JBSWY3DPEHPK3PXP"), .ok (), .ok (str "123456"),
    .ok (str "654321"), .error (.plain (str "AccessDenied")), str "Yubikey"⟩

/-- The decoded Scenario 1 secret (`JBSWY3DPEHPK3PXP`). -/
def secretAlice : List Nat := [72, 101, 108, 108, 111, 33, 222, 173, 190, 239]

/-- C4 counterexample: the two `GetOTP` derivation times come from two
separate `time.Now()` readings; in a run where the clock advances by one
second between the readings (first reading 0, second reading 1), the codes
are derived at times 0 and 31 — not exactly 30 seconds apart. -/
theorem c4_counterexample :
    otpTimes (mfaAdd enrollEnvOk (str "alice") 0 1).2 = [0, 31] ∧
    (31 : Int) ≠ 0 + 30 := by
  decide

/-- C4 (amended): the first code is derived at the first `time.Now()`
reading `t1` and the second at `t2 + 30`, where `t2` is a second, separate
`time.Now()` reading; exactly when the two readings coincide (`t2 = t1`)
the two derivation times are exactly 30 seconds apart. -/
theorem c4_otp_times (env : EnrollCalls) (username serial name : Str)
    (seed : Str) (secret : List Nat) (t1 t2 : Int) (c1 c2 : Str)
    (hcr : env.createResult = .ok (serial, seed))
    (hdec : base32Decode seed = some secret)
    (hname : SerialToName serial = .ok name)
    (hadd : env.deviceAdd = .ok ())
    (h1 : env.otp1 = .ok c1) (h2 : env.otp2 = .ok c2) :
    otpTimes (mfaAdd env username t1 t2).2 = [t1, t2 + 30] ∧
    (t2 = t1 → otpTimes (mfaAdd env username t1 t2).2 = [t1, t1 + 30]) := by
  have ht : otpTimes (mfaAdd env username t1 t2).2 = [t1, t2 + 30] := by
    cases hen : env.enableDevice with
    | error e =>
      simp [mfaAdd, mfaCreate, hcr, hdec, enable, hname, hadd, h1, h2, hen, otpTimes]
    | ok u =>
      simp [mfaAdd, mfaCreate, hcr, hdec, enable, hname, hadd, h1, h2, hen, otpTimes]
  exact ⟨ht, fun h => by rw [ht, h]⟩

/-- C4 amended-claim witness: with coinciding clock readings the times are
exactly `[0, 30]`. -/
theorem c4_otp_times_witness :
    otpTimes (mfaAdd enrollEnvOk (str "alice") 0 0).2 = [(0 : Int), 0 + 30] :=
  (c4_otp_times enrollEnvOk (str "alice") mAlice dAlice
    (str "JBSWY3DPEHPK3PXP") secretAlice 0 0 (str "123456") (str "654321")
    (by decide) (by decide) (by decide) (by decide) (by decide) (by decide)).1

/-- C5: for every parseable device identifier, `SerialToName` returns
exactly the fixed issuer label `"aws"` joined to the identifier by `":"`
(being a pure function, repeated calls agree by construction), and every
`OtpDevice.Add` performed during enrollment receives precisely this
display identity as the name. -/
theorem c5_display_identity (serial : Str) (a : Arn)
    (h : arnParse serial = .ok a) :
    SerialToName serial = .ok (str "aws" ++ ':' :: serial) ∧
    (∀ (env : EnrollCalls) (username : Str) (secret : List Nat) (t1 t2 : Int)
      (nm : Str) (sec : List Nat),
      EEvent.deviceAdd nm sec ∈ (enable env username serial secret t1 t2).2 →
      nm = str "aws" ++ ':' :: serial) := by
  have h1 : SerialToName serial = .ok (str "aws" ++ ':' :: serial) := by
    rw [SerialToName, h]
    show Except.ok (str "aws" ++ ':' :: Arn.toString a) = _
    rw [arnParse_toString h]
  refine ⟨h1, ?_⟩
  intro env username secret t1 t2 nm sec hmem
  rcases ha : env.deviceAdd with e | u <;>
    rcases hb : env.otp1 with e1 | o1 <;>
      rcases hc : env.otp2 with e2 | o2 <;>
        rcases hd : env.enableDevice with e3 | u3 <;>
          simp [enable, h1, ha, hb, hc, hd] at hmem <;>
            exact hmem.1

/-- C5 witness at the Scenario 1 serial: the display identity is
`aws:arn:aws:iam::111111111111:mfa/alice`. -/
theorem c5_display_identity_witness :
    SerialToName mAlice = .ok dAlice :=
  (c5_display_identity mAlice
    ⟨str "aws", str "iam", [], str "111111111111", str "mfa/alice"⟩
    (by decide)).1

theorem c6_trace_cases (env : TeardownCalls) :
    (mfaDelete env).2 = [] ∨
    (mfaDelete env).2 = [TEvent.remoteDeactivate] ∨
    (mfaDelete env).2 = [TEvent.remoteDeactivate, TEvent.remoteDelete] ∨
    (mfaDelete env).2 =
      [TEvent.remoteDeactivate, TEvent.remoteDelete, TEvent.deviceDelete] := by
  unfold mfaDelete
  repeat' split
  all_goals simp

/-- C6: in every execution of `Teardown`, if the local device deletion was
invoked at all then the performed calls are exactly the remote
deactivation, then the remote deletion, then the local device deletion —
the local `OtpDevice.Delete` is never invoked before both remote steps
have completed. -/
theorem c6_ordering (env : TeardownCalls)
    (h : TEvent.deviceDelete ∈ (mfaDelete env).2) :
    (mfaDelete env).2 =
      [TEvent.remoteDeactivate, TEvent.remoteDelete, TEvent.deviceDelete] := by
  rcases c6_trace_cases env with h0 | h0 | h0 | h0 <;> rw [h0] at h ⊢ <;> simp_all

/-- C6 witness at a fully-successful teardown run. -/
theorem c6_ordering_witness :
    (mfaDelete tearEnvOk).2 =
      [TEvent.remoteDeactivate, TEvent.remoteDelete, TEvent.deviceDelete] :=
  c6_ordering tearEnvOk (by decide)

/-- C7: if the remote `EnableMFADevice` call fails after `OtpDevice.Add`
succeeded, `Enroll` returns an error wrapping the underlying cause, the
device-side entry added under the display identity was indeed added, and
no `OtpDevice.Delete` call is performed (no compensating rollback). -/
theorem c7_no_rollback (env : EnrollCalls) (username serial name : Str)
    (seed : Str) (secret : List Nat) (t1 t2 : Int) (c1 c2 : Str) (e : GoErr)
    (hcr : env.createResult = .ok (serial, seed))
    (hdec : base32Decode seed = some secret)
    (hname : SerialToName serial = .ok name)
    (hadd : env.deviceAdd = .ok ())
    (h1 : env.otp1 = .ok c1) (h2 : env.otp2 = .ok c2)
    (hen : env.enableDevice = .error e) :
    (mfaAdd env username t1 t2).1 =
      .error (.wrap (str "error enabling Yubikey as virtual mfa device") e) ∧
    EEvent.deviceAdd name secret ∈ (mfaAdd env username t1 t2).2 ∧
    (∀ nm, EEvent.deviceDelete nm ∉ (mfaAdd env username t1 t2).2) := by
  simp [mfaAdd, mfaCreate, hcr, hdec, enable, hname, hadd, h1, h2, hen]

/-- C7 witness at the Scenario 5 input. -/
theorem c7_no_rollback_witness :
    (mfaAdd enrollEnvEnableFail (str "alice") 0 0).1 =
      .error (.wrap (str "error enabling Yubikey as virtual mfa device")
        (.plain (str "AccessDenied"))) ∧
    EEvent.deviceAdd dAlice secretAlice ∈
      (mfaAdd enrollEnvEnableFail (str "alice") 0 0).2 ∧
    (∀ nm, EEvent.deviceDelete nm ∉ (mfaAdd enrollEnvEnableFail (str "alice") 0 0).2) :=
  c7_no_rollback enrollEnvEnableFail (str "alice") mAlice dAlice
    (str "JBSWY3DPEHPK3PXP") secretAlice 0 0 (str "123456") (str "654321")
    (.plain (str "AccessDenied")) (by decide) (by decide) (by decide)
    (by decide) (by decide) (by decide) (by decide)

/-- C8: `Remove` requests session deletion only after the teardown has
returned success (on a teardown error, the error is returned and no
session deletion is attempted); an anomalous deletion count greater than 1
is logged but `Remove` still returns success; a session-store deletion
error is wrapped and returned. -/
theorem c8_remove (env : RemoveCalls) (profileName : Str) :
    (∀ e, env.teardownRes = .error e →
      (vaultRemove env profileName).1 = .error e ∧
      REvent.sessionDelete ∉ (vaultRemove env profileName).2) ∧
    (∀ n, env.teardownRes = .ok () → env.sessionDeleteRes = .ok n → 1 < n →
      (vaultRemove env profileName).1 = .ok () ∧
      REvent.logDeletedSessions n ∈ (vaultRemove env profileName).2) ∧
    (∀ e, env.teardownRes = .ok () → env.sessionDeleteRes = .error e →
      (vaultRemove env profileName).1 =
        .error (.wrap (str "unable to delete keyring session for " ++ profileName) e)) := by
  refine ⟨?_, ?_, ?_⟩
  · intro e he
    simp [vaultRemove, he]
  · intro n ht hs hn
    have hne : ¬ n = 1 := by omega
    simp [vaultRemove, ht, hs, hne, hn]
  · intro e ht hs
    simp [vaultRemove, ht, hs]

/-- Remove collaborators where teardown succeeds and the session store
reports two deleted sessions. -/
def removeEnvTwo : RemoveCalls := ⟨.ok (), .ok 2⟩

/-- C8 witness: an anomalous count of 2 is logged and `Remove` succeeds. -/
theorem c8_remove_witness :
    (vaultRemove removeEnvTwo (str "jonsmith")).1 = .ok () ∧
    REvent.logDeletedSessions 2 ∈ (vaultRemove removeEnvTwo (str "jonsmith")).2 :=
  (c8_remove removeEnvTwo (str "jonsmith")).2.1 2 rfl rfl (by omega)

/-- C9 counterexample: in the fully-successful Scenario 1 run, the URI
handed to QR rendering is
`otpauth://totp/alice@jonsmith?secret=JBSWY3DPEHPK3PXP&issuer=Amazon` —
its path is `<username>@<profileName>` rather than the DisplayIdentity
`aws:arn:aws:iam::111111111111:mfa/alice`, and its issuer is `Amazon`
rather than the fixed issuer label `aws`, so it differs from the claimed
shape. -/
theorem c9_counterexample :
    (vaultRegister enrollEnvOk (str "alice") (str "jonsmith") 0 0).1 =
      .ok (str "otpauth://totp/alice@jonsmith?secret=JBSWY3DPEHPK3PXP&issuer=Amazon") ∧
    SerialToName mAlice = .ok dAlice ∧
    str "otpauth://totp/alice@jonsmith?secret=JBSWY3DPEHPK3PXP&issuer=Amazon" ≠
      specEnrollmentUri dAlice secretAlice (str "aws") := by
  decide

/-- C9 (amended): after a successful enrollment the URI handed to QR
rendering is `otpauth://totp/<username>@<profileName>?secret=<base32Secret>&issuer=Amazon`,
where `<base32Secret>` is the base32 re-encoding of the OtpSecret; the
path is the IAM user name and profile name, not the DisplayIdentity, and
the issuer label is `Amazon`, not the `aws` label used for display
identities. -/
theorem c9_uri_shape (env : EnrollCalls) (username profileName serial : Str)
    (secret : List Nat) (t1 t2 : Int)
    (h : (mfaAdd env username t1 t2).1 = .ok (serial, secret)) :
    (vaultRegister env username profileName t1 t2).1 =
      .ok (str "otpauth://totp/" ++ username ++ '@' :: profileName ++
        str "?secret=" ++ base32Encode secret ++ str "&issuer=" ++ str "Amazon") := by
  rcases hm : mfaAdd env username t1 t2 with ⟨res, tr⟩
  rw [hm] at h
  simp only at h
  subst h
  simp [vaultRegister, hm]

/-- C9 amended-claim witness at the Scenario 1 run. -/
theorem c9_uri_shape_witness :
    (vaultRegister enrollEnvOk (str "alice") (str "jonsmith") 0 0).1 =
      .ok (str "otpauth://totp/" ++ str "alice" ++ '@' :: str "jonsmith" ++
        str "?secret=" ++ base32Encode secretAlice ++ str "&issuer=" ++ str "Amazon") :=
  c9_uri_shape enrollEnvOk (str "alice") (str "jonsmith") mAlice secretAlice 0 0
    (by decide)

/-- C10: a parseable caller identity containing no `":user/"` segment is
returned by the conversion unchanged (the parse canonicalization is the
identity on parseable input and the substitution finds nothing to
replace), and the only error case of the conversion is an ARN parse
failure, whose error it wraps. -/
theorem c10_nonuser_identity (s : Str) :
    (∀ a, arnParse s = .ok a → ¬ userSeg <:+: s →
      callerIdentityToSerial s = .ok s) ∧
    (∀ e, arnParse s = .error e →
      callerIdentityToSerial s =
        .error (.wrap (str "failed to parse " ++ goQuote s ++ str " as ARN") e)) := by
  constructor
  · intro a h hni
    rw [callerIdentityToSerial, h]
    show Except.ok (replaceFirst (Arn.toString a) userSeg mfaSeg) = .ok s
    rw [arnParse_toString h, replaceFirst_not_infix hni]
  · intro e h
    rw [callerIdentityToSerial, h]

/-- C10 witness at an assumed-role caller identity: the identifier passes
through the conversion unchanged. -/
theorem c10_nonuser_identity_witness :
    callerIdentityToSerial (str "arn:aws:sts::111111111111:assumed-role/admin/web") =
      .ok (str "arn:aws:sts::111111111111:assumed-role/admin/web") :=
  (c10_nonuser_identity (str "arn:aws:sts::111111111111:assumed-role/admin/web")).1
    ⟨str "aws", str "sts", [], str "111111111111", str "assumed-role/admin/web"⟩
    (by decide) (by decide)
